import Mathlib

/-!
# Verification of the fmriprep CLI launch supervisor

Shallow embedding of `src/fmriprep/cli/run.py`: the `main` entry point and
the `build_workflow` worker that it spawns in a separate process.  External
collaborators (filesystem, environment variables, participant discovery,
report generation, the nipype engine) are modelled as an explicit `World`
of oracles; `build_workflow` and `main` are straight-line translations of
the Python source, recording their observable side effects in traces.
-/

namespace FmriprepRun

/-- Model of `os.path.join a b` for the path shapes used by the CLI
(no trailing separators, `join('', b) = b` as in CPython). -/
def op_join (a b : String) : String :=
  if a = "" then b else a ++ "/" ++ b

/-- Whether the first character list is a leading segment of the second. -/
def listStartsWith : List Char → List Char → Bool
  | [], _ => true
  | _ :: _, [] => false
  | n :: ns, h :: hs => n == h && listStartsWith ns hs

/-- Whether `needle` occurs as a contiguous sublist of the second argument. -/
def listContainsSub (needle : List Char) : List Char → Bool
  | [] => listStartsWith needle []
  | h :: hs => listStartsWith needle (h :: hs) || listContainsSub needle hs

/-- Model of Python's `needle in hay` on strings. -/
def strContains (hay needle : String) : Bool :=
  listContainsSub needle.data hay.data

/-- Parsed command-line options, mirroring `get_parser()`.  Field defaults
are the argparse defaults; `Option` fields model arguments whose argparse
default is `None`. -/
structure Opts where
  bids_dir : String := ""
  output_dir : String := ""
  participant_label : Option (List String) := none
  task_id : Option String := none
  debug : Bool := false
  nthreads : Int := 0
  omp_nthreads : Int := 0
  mem_mb : Int := 0
  low_mem : Bool := false
  /-- Document loaded from the `--use-plugin` nipype plugin configuration
  file; `none` models the argparse default `None`. -/
  use_plugin : Option String := none
  anat_only : Bool := false
  ignore_aroma_denoising_errors : Bool := false
  verbose_count : Int := 0
  ignore : List String := []
  longitudinal : Bool := false
  t2s_coreg : Bool := false
  bold2t1w_dof : Int := 9
  output_space : List String := ["template", "fsaverage5"]
  use_bbr : Option Bool := none
  template : String := "MNI152NLin2009cAsym"
  output_grid_reference : Option String := none
  medial_surface_nan : Bool := false
  use_aroma : Bool := false
  skull_strip_template : String := "OASIS"
  fmap_bspline : Bool := false
  fmap_no_demean : Bool := true
  use_syn_sdc : Bool := false
  force_syn : Bool := false
  run_reconall : Bool := true
  hires : Bool := true
  fs_license_file : Option String := none
  work_dir : Option String := none
  resource_monitor : Bool := false
  reports_only : Bool := false
  run_uuid : Option String := none
  write_graph : Bool := false
  stop_on_first_crash : Bool := false
deriving DecidableEq

/-- Outcome of `fmriprep_wf.run(**plugin_settings)` in the nipype engine:
success, or an exception (`isRuntimeErr` distinguishes `RuntimeError`,
the only class the supervisor catches). -/
inductive RunResult where
  | ok : RunResult
  | err (isRuntimeErr : Bool) (msg : String) : RunResult
deriving DecidableEq

/-- The `plugin_args` dictionary of the computed MultiProc settings.
`memory_gb` is `mem_mb / 1024` (Python true division, modelled in `ℚ`). -/
structure PluginArgs where
  n_procs : Int
  raise_insufficient : Bool
  maxtasksperchild : Int
  memory_gb : Option ℚ
deriving DecidableEq

/-- Value of `plugin_settings`: the computed MultiProc dictionary, or the
document loaded verbatim from the `--use-plugin` file. -/
inductive PluginSettings where
  | multiproc (args : PluginArgs) : PluginSettings
  | external (doc : String) : PluginSettings
deriving DecidableEq

/-- The argument record handed to `init_fmriprep_wf`; the constructed graph
is opaque to the supervisor, so the handle is modelled by the arguments
that produced it. -/
structure WfArgs where
  subject_list : List String
  task_id : Option String
  run_uuid : String
  ignore : List String
  debug : Bool
  low_mem : Bool
  anat_only : Bool
  longitudinal : Bool
  t2s_coreg : Bool
  omp_nthreads : Int
  skull_strip_template : String
  work_dir : String
  output_dir : String
  bids_dir : String
  freesurfer : Bool
  output_spaces : List String
  template : String
  medial_surface_nan : Bool
  output_grid_ref : Option String
  hires : Bool
  use_bbr : Option Bool
  bold2t1w_dof : Int
  fmap_bspline : Bool
  fmap_demean : Bool
  use_syn : Bool
  force_syn : Bool
  use_aroma : Bool
  ignore_aroma_err : Bool
deriving DecidableEq

/-- The `execution` section of the `ncfg.update_config` call (the fields
the supervisor computes). -/
structure NCfg where
  log_directory : String
  crashdump_dir : String
  stop_on_first_crash : Bool
deriving DecidableEq

/-- The manager-dict contents written by the worker (all keys are assigned
together at the end of the fallible section, so the channel either has all
of them or none). -/
structure Retval where
  return_code : Int
  plugin_settings : PluginSettings
  output_dir : String
  work_dir : String
  subject_list : List String
  run_uuid : String
  workflow : Option WfArgs
deriving DecidableEq

/-- One call to `generate_reports(subject_list, output_dir, work_dir, run_uuid)`. -/
structure ReportCall where
  subject_list : List String
  output_dir : String
  work_dir : String
  run_uuid : String
deriving DecidableEq

/-- Oracles for every external collaborator the supervisor touches. -/
structure World where
  /-- Value of `multiprocessing.cpu_count()`. -/
  cpu_count : Int
  /-- Value of `os.getenv('FS_LICENSE')` (`none` = unset). -/
  env_FS_LICENSE : Option String
  /-- Value of `os.getenv('FREESURFER_HOME')` (`none` = unset). -/
  env_FREESURFER_HOME : Option String
  /-- Oracle for `os.path.exists`. -/
  path_exists : String → Bool
  /-- Oracle for `os.path.abspath`. -/
  abspath : String → String
  /-- Outcome of `collect_participants(bids_dir, participant_label)`: the
  resolved subject list, or the message of the exception it raises. -/
  collect_participants : String → Option (List String) → Except String (List String)
  /-- Whether `os.makedirs(d, exist_ok=True)` succeeds for directory `d`. -/
  makedirs_ok : String → Bool
  /-- Failure count returned by
  `generate_reports(subject_list, output_dir, work_dir, run_uuid)`. -/
  generate_reports : List String → String → String → String → Int
  /-- If `some m`, `init_fmriprep_wf` raises with message `m`. -/
  init_wf_fault : Option String
  /-- If `some m`, `fmriprep_wf.write_graph` raises with message `m`. -/
  write_graph_fault : Option String
  /-- Outcome of `fmriprep_wf.run(**plugin_settings)`. -/
  wf_run : RunResult

/-- Translation of
`nthreads = opts.nthreads; if nthreads < 1: nthreads = cpu_count()`. -/
def plan_nthreads (T C : Int) : Int :=
  if T < 1 then C else T

/-- Translation of `omp_nthreads = opts.omp_nthreads; if omp_nthreads == 0:
omp_nthreads = min(nthreads - 1 if nthreads > 1 else cpu_count(), 8)`. -/
def plan_omp (O nthreads C : Int) : Int :=
  if O = 0 then min (if nthreads > 1 then nthreads - 1 else C) 8 else O

/-- Translation of
`if opts.mem_mb: plugin_args['memory_gb'] = opts.mem_mb / 1024`
(the key is absent when `mem_mb` is falsy, i.e. zero). -/
def plan_memory_gb (M : Int) : Option ℚ :=
  if M ≠ 0 then some ((M : ℚ) / 1024) else none

/-- The computed `plugin_settings` dictionary (before the `--use-plugin`
override). -/
def computed_plugin_settings (mem_mb nthreads : Int) : PluginSettings :=
  .multiproc
    { n_procs := nthreads
      raise_insufficient := false
      maxtasksperchild := 1
      memory_gb := plan_memory_gb mem_mb }

/-- Message of the `RuntimeError` raised by the AROMA cross-option check. -/
def aroma_err_msg (template : String) (output_space : List String) : String :=
  "ERROR: --use-aroma requires functional images to be resampled to " ++
  "MNI152NLin2009cAsym. --template must be set to MNI152NLin2009cAsym (was: " ++
  template ++ ") --output-space list must include template (was: " ++
  String.intercalate " " output_space ++ ")"

/-- Message of the `RuntimeError` raised by the forced-SyN check. -/
def syn_err_msg : String :=
  "SyN SDC correction requires T1 to MNI registration, but template is not " ++
  "specified in --output-space arguments"

/-- Message of an `OSError` escaping `os.makedirs`. -/
def mkdir_err_msg (d : String) : String :=
  "OSError: cannot create directory " ++ d

/-- Message of the `RuntimeError` raised when no license file exists. -/
def license_err_msg : String :=
  "ERROR: a valid license file is required for FreeSurfer to run"

/-- `KeyError` raised in the parent when the manager dict has no keys. -/
def key_err_msg : String :=
  "KeyError: workflow"

/-- The substring `main` looks for in a caught `RuntimeError`. -/
def workflow_clean_err : String :=
  "Workflow did not execute cleanly"

/-- Everything observable about one run of the `build_workflow` worker
process: the exception escaping it uncaught (if any), the contents of the
manager dict (`none` when no key was ever assigned), the directories it
(idempotently) created, the `generate_reports` calls it made, the nipype
execution config it installed, and whether `init_fmriprep_wf` was invoked. -/
structure BuildOutcome where
  fault : Option String := none
  channel : Option Retval := none
  dirs_created : List String := []
  report_calls : List ReportCall := []
  ncfg : Option NCfg := none
  init_wf_called : Bool := false
deriving DecidableEq

/-- Translation of `build_workflow(opts, retval)` (run.py lines 279-450).
`fresh_run_uuid` stands for the nondeterministic
`'%s_%s' % (strftime(...), uuid.uuid4())` token. -/
def build_workflow (w : World) (opts : Opts) (fresh_run_uuid : String) :
    BuildOutcome :=
  -- ERROR check if use_aroma was specified, but the correct template was not
  if opts.use_aroma &&
      (opts.template != "MNI152NLin2009cAsym" ||
        !(opts.output_space.contains "template")) then
    { fault := some (aroma_err_msg opts.template opts.output_space) }
  -- SyN check: raises only when force_syn; use_syn_sdc alone only warns
  else if !(opts.output_space.contains "template") && opts.force_syn then
    { fault := some syn_err_msg }
  else
    let run_uuid := fresh_run_uuid
    let bids_dir := w.abspath opts.bids_dir
    match w.collect_participants bids_dir opts.participant_label with
    | .error e => { fault := some e }
    | .ok subject_list =>
      let nthreads := plan_nthreads opts.nthreads w.cpu_count
      let plugin_settings :=
        match opts.use_plugin with
        | some doc => PluginSettings.external doc
        | none => computed_plugin_settings opts.mem_mb nthreads
      let omp_nthreads := plan_omp opts.omp_nthreads nthreads w.cpu_count
      let output_dir := w.abspath opts.output_dir
      let log_dir := op_join (op_join output_dir "fmriprep") "logs"
      let work_dir := w.abspath (opts.work_dir.getD "work")
      if !w.makedirs_ok output_dir then
        { fault := some (mkdir_err_msg output_dir) }
      else if !w.makedirs_ok log_dir then
        { fault := some (mkdir_err_msg log_dir), dirs_created := [output_dir] }
      else if !w.makedirs_ok work_dir then
        { fault := some (mkdir_err_msg work_dir)
          dirs_created := [output_dir, log_dir] }
      else
        let dirs := [output_dir, log_dir, work_dir]
        let cfg : NCfg :=
          { log_directory := log_dir
            crashdump_dir := log_dir
            stop_on_first_crash :=
              opts.stop_on_first_crash || opts.work_dir.isNone }
        let retval0 : Retval :=
          { return_code := 0
            plugin_settings := plugin_settings
            output_dir := output_dir
            work_dir := work_dir
            subject_list := subject_list
            run_uuid := run_uuid
            workflow := none }
        if opts.reports_only then
          let report_uuid :=
            match opts.run_uuid with
            | some u => u
            | none => run_uuid
          let rc := w.generate_reports subject_list output_dir work_dir report_uuid
          { channel := some { retval0 with return_code := rc }
            dirs_created := dirs
            report_calls := [⟨subject_list, output_dir, work_dir, report_uuid⟩]
            ncfg := some cfg }
        else
          match w.init_wf_fault with
          | some m =>
            { fault := some m
              channel := some retval0
              dirs_created := dirs
              ncfg := some cfg
              init_wf_called := true }
          | none =>
            let wf : WfArgs :=
              { subject_list := subject_list
                task_id := opts.task_id
                run_uuid := run_uuid
                ignore := opts.ignore
                debug := opts.debug
                low_mem := opts.low_mem
                anat_only := opts.anat_only
                longitudinal := opts.longitudinal
                t2s_coreg := opts.t2s_coreg
                omp_nthreads := omp_nthreads
                skull_strip_template := opts.skull_strip_template
                work_dir := work_dir
                output_dir := output_dir
                bids_dir := bids_dir
                freesurfer := opts.run_reconall
                output_spaces := opts.output_space
                template := opts.template
                medial_surface_nan := opts.medial_surface_nan
                output_grid_ref := opts.output_grid_reference
                hires := opts.hires
                use_bbr := opts.use_bbr
                bold2t1w_dof := opts.bold2t1w_dof
                fmap_bspline := opts.fmap_bspline
                fmap_demean := opts.fmap_no_demean
                use_syn := opts.use_syn_sdc
                force_syn := opts.force_syn
                use_aroma := opts.use_aroma
                ignore_aroma_err := opts.ignore_aroma_denoising_errors }
            { channel := some { retval0 with workflow := some wf, return_code := 0 }
              dirs_created := dirs
              ncfg := some cfg
              init_wf_called := true }

/-- How the `main` process terminated: a `sys.exit(code)` call, or an
uncaught exception propagating to the interpreter (which also yields a
nonzero process exit status). -/
inductive Term where
  | exited (code : Int) : Term
  | crashed (msg : String) : Term
deriving DecidableEq

/-- The process exit status is nonzero (an uncaught exception makes the
interpreter exit with status 1). -/
def Term.nonzero : Term → Bool
  | .exited c => c != 0
  | .crashed _ => true

/-- Observable side effects of `main`: the `FS_LICENSE` value written back
into the environment, the worker outcome (`none` when no worker was
spawned), whether `write_graph` / `fmriprep_wf.run` were invoked, the
value returned by the post-execution `generate_reports` call (`none` when
it never ran), and that call itself. -/
structure MainTrace where
  env_fs_license_set : Option String := none
  build : Option BuildOutcome := none
  write_graph_called : Bool := false
  wf_run_called : Bool := false
  report_total : Option Int := none
  main_report_calls : List ReportCall := []
deriving DecidableEq

/-- Result of one invocation of `main`. -/
structure MainResult where
  term : Term
  trace : MainTrace
deriving DecidableEq

/-- License precedence (run.py lines 216-219):
`license_file = opts.fs_license_file or os.getenv('FS_LICENSE', default_license)`
with `default_license = os.path.join(os.getenv('FREESURFER_HOME', ''), 'license.txt')`.
Python `or` takes the argument when it is truthy (non-`None`, non-empty);
`os.getenv('FS_LICENSE', d)` yields the variable's value whenever the
variable is present (even empty), else `d`. -/
def resolve_license (w : World) (fs_license_file : Option String) : String :=
  let default_license := op_join (w.env_FREESURFER_HOME.getD "") "license.txt"
  let env_value := w.env_FS_LICENSE.getD default_license
  match fs_license_file with
  | some s => if s = "" then env_value else s
  | none => env_value

/-- Lines 264-276 of `main`: run the workflow catching only `RuntimeError`
whose message contains `workflow_clean_err`, then add the
`generate_reports` failure count and exit nonzero iff the sum is positive.
`errno` enters as 0 (line 238). -/
def execute_and_report (w : World) (r : Retval) (tr : MainTrace) : MainResult :=
  let tr := { tr with wf_run_called := true }
  let report (errno : Int) : MainResult :=
    let n := w.generate_reports r.subject_list r.output_dir r.work_dir r.run_uuid
    { term := .exited (if errno + n > 0 then 1 else 0)
      trace :=
        { tr with
          report_total := some n
          main_report_calls :=
            [⟨r.subject_list, r.output_dir, r.work_dir, r.run_uuid⟩] } }
  match w.wf_run with
  | .ok => report 0
  | .err isRT msg =>
    if isRT && strContains msg workflow_clean_err then report 1
    else { term := .crashed msg, trace := tr }

/-- Translation of `main()` (run.py lines 206-276).  `fresh_run_uuid` is the
token the worker would generate. -/
def main (w : World) (opts : Opts) (fresh_run_uuid : String) : MainResult :=
  let license_file := resolve_license w opts.fs_license_file
  if !w.path_exists license_file then
    { term := .crashed license_err_msg, trace := {} }
  else
    let tr0 : MainTrace := { env_fs_license_set := some license_file }
    let bo := build_workflow w opts fresh_run_uuid
    let tr1 := { tr0 with build := some bo }
    match bo.channel with
    | none =>
      -- retval['workflow'] raises KeyError: the dict has no keys
      { term := .crashed key_err_msg, trace := tr1 }
    | some r =>
      if r.workflow.isNone then
        { term := .exited 1, trace := tr1 }
      else if opts.write_graph then
        match w.write_graph_fault with
        | some m =>
          { term := .crashed m, trace := { tr1 with write_graph_called := true } }
        | none =>
          let tr2 := { tr1 with write_graph_called := true }
          if opts.reports_only then
            { term := .exited (if r.return_code > 0 then 1 else 0), trace := tr2 }
          else execute_and_report w r tr2
      else
        if opts.reports_only then
          { term := .exited (if r.return_code > 0 then 1 else 0), trace := tr1 }
        else execute_and_report w r tr1

/-! ## Concrete worlds and options used to instantiate the theorems -/

/-- A world in which every external collaborator succeeds: 4 cores, license
found wherever looked up, two participants, reports succeed, engine runs
cleanly. -/
def okWorld : World :=
  { cpu_count := 4
    env_FS_LICENSE := none
    env_FREESURFER_HOME := some "/opt/freesurfer"
    path_exists := fun _ => true
    abspath := fun s => s
    collect_participants := fun _ _ => .ok ["01", "02"]
    makedirs_ok := fun _ => true
    generate_reports := fun _ _ _ _ => 0
    init_wf_fault := none
    write_graph_fault := none
    wf_run := .ok }

/-- Options requesting AROMA denoising without the `template` output space. -/
def aromaOpts : Opts :=
  { bids_dir := "/data/bids"
    output_dir := "/data/out"
    use_aroma := true
    output_space := ["T1w"] }

/-- Options for a reports-only invocation with a supplied prior run id. -/
def reportsOpts : Opts :=
  { bids_dir := "/data/bids"
    output_dir := "/data/out"
    reports_only := true
    run_uuid := some "prior-uuid" }

/-- A placeholder retval used only as the `Option.getD` default when
projecting a known-`some` channel. -/
def emptyRetval : Retval :=
  { return_code := 0
    plugin_settings := .external ""
    output_dir := ""
    work_dir := ""
    subject_list := []
    run_uuid := ""
    workflow := none }

/-- Options for a plain full run. -/
def execOpts : Opts :=
  { bids_dir := "/b", output_dir := "/o" }

/-- A world whose engine run raises `RuntimeError` containing the
"did not execute cleanly" marker and whose report aggregation reports two
failing participants. -/
def crashWorld : World :=
  { okWorld with
    wf_run := .err true "RuntimeError: Workflow did not execute cleanly"
    generate_reports := fun _ _ _ _ => 2 }

/-- A world whose participant resolution raises (invalid dataset). -/
def badDatasetWorld : World :=
  { okWorld with
    collect_participants := fun _ _ => .error "ERROR: no subjects found" }

/-- Resolver following the SPEC'S words for claim C4 (not the code): an
ordered candidate list — explicit argument, `FS_LICENSE` value,
`FREESURFER_HOME` default — where the first candidate that is non-empty
AND names an existing file wins; `none` when no candidate resolves. -/
def resolve_license_spec (w : World) (fs_license_file : Option String) :
    Option String :=
  [fs_license_file.getD "", w.env_FS_LICENSE.getD "",
    op_join (w.env_FREESURFER_HOME.getD "") "license.txt"].find?
    (fun c => !(c == "") && w.path_exists c)

/-- A world where `FS_LICENSE` names a missing file while the
`FREESURFER_HOME` default exists. -/
def licWorld : World :=
  { okWorld with
    env_FS_LICENSE := some "/bad/license.txt"
    env_FREESURFER_HOME := some "/fs"
    path_exists := fun s => s == "/fs/license.txt" }

/-- Options supplying a plugin override with per-task threads 3. -/
def pluginOptsA : Opts :=
  { bids_dir := "/b", output_dir := "/o"
    use_plugin := some "plugin.yml", omp_nthreads := 3 }

/-- Same options except per-task threads 5. -/
def pluginOptsB : Opts :=
  { pluginOptsA with omp_nthreads := 5 }

/-- Options requesting the graph visualization. -/
def wgOpts : Opts :=
  { bids_dir := "/b", output_dir := "/o", write_graph := true }

/-- A world whose `write_graph` call raises. -/
def wgFailWorld : World :=
  { okWorld with write_graph_fault := some "write_graph failed" }

/-! ## C9: stop-on-first-crash policy -/

/-- C9: the `stop_on_first_crash` value installed in the nipype execution
config is true exactly when the explicit flag is set or no working
directory was specified by the user. -/
theorem c9_stop_on_first_crash_policy (w : World) (opts : Opts) (u : String)
    (cfg : NCfg) (h : (build_workflow w opts u).ncfg = some cfg) :
    cfg.stop_on_first_crash = true ↔
      (opts.stop_on_first_crash = true ∨ opts.work_dir = none) := by
  simp only [build_workflow] at h
  repeat' split at h
  all_goals simp only [Option.some.injEq] at h
  all_goals first
    | exact absurd h (by simp)
    | (subst h; simp [Option.isNone_iff_eq_none])

/-- Witness for C9 at a concrete input: default options (no work dir, flag
unset) yield a config with `stop_on_first_crash = true`. -/
theorem c9_stop_on_first_crash_policy_witness :
    ({ log_directory := op_join (op_join "/o" "fmriprep") "logs"
       crashdump_dir := op_join (op_join "/o" "fmriprep") "logs"
       stop_on_first_crash := true } : NCfg).stop_on_first_crash = true :=
  (c9_stop_on_first_crash_policy okWorld { bids_dir := "/b", output_dir := "/o" }
      "uuid" _ (by decide)).mpr (Or.inr rfl)

/-! ## C6: AROMA cross-option check -/

/-- C6: whenever AROMA is requested but the template is not
MNI152NLin2009cAsym or `template` is missing from the output spaces, the
worker raises before creating any directory, making any report call,
installing any engine config, or invoking graph construction. -/
theorem c6_aroma_requires_template (w : World) (opts : Opts) (u : String)
    (h1 : opts.use_aroma = true)
    (h2 : opts.template ≠ "MNI152NLin2009cAsym" ∨
      "template" ∉ opts.output_space) :
    (build_workflow w opts u).fault =
        some (aroma_err_msg opts.template opts.output_space) ∧
      (build_workflow w opts u).channel = none ∧
      (build_workflow w opts u).dirs_created = [] ∧
      (build_workflow w opts u).report_calls = [] ∧
      (build_workflow w opts u).ncfg = none ∧
      (build_workflow w opts u).init_wf_called = false := by
  have hc : opts.use_aroma = true ∧
      (¬ opts.template = "MNI152NLin2009cAsym" ∨
        "template" ∉ opts.output_space) := ⟨h1, h2⟩
  simp [build_workflow, hc]

/-- Witness for C6: AROMA with `--output-space T1w` fails before any
directory is created. -/
theorem c6_aroma_requires_template_witness :
    (build_workflow okWorld aromaOpts "uuid").channel = none ∧
      (build_workflow okWorld aromaOpts "uuid").dirs_created = [] :=
  ⟨(c6_aroma_requires_template okWorld aromaOpts "uuid" rfl
      (Or.inr (by decide))).2.1,
    (c6_aroma_requires_template okWorld aromaOpts "uuid" rfl
      (Or.inr (by decide))).2.2.1⟩

/-! ## C10: run identifier handed back in reports-only mode -/

/-- C10: in reports-only mode with a user-supplied prior run identifier,
the `run_uuid` field written to the channel is the freshly generated token,
while the in-worker `generate_reports` call receives the prior identifier. -/
theorem c10_reports_only_fresh_uuid (w : World) (opts : Opts) (u prior : String)
    (h1 : opts.reports_only = true)
    (h2 : opts.run_uuid = some prior)
    (h : (build_workflow w opts u).fault = none) :
    ((build_workflow w opts u).channel.map (fun r => r.run_uuid)) = some u ∧
      ((build_workflow w opts u).report_calls.map (fun c => c.run_uuid)) =
        [prior] := by
  simp only [build_workflow] at h ⊢
  repeat' split at h
  all_goals repeat' split
  all_goals simp_all

/-- Witness for C10: concrete reports-only run; the channel carries the
fresh token, the aggregation call the prior one. -/
theorem c10_reports_only_fresh_uuid_witness :
    ((build_workflow okWorld reportsOpts "fresh").channel.map
        (fun r => r.run_uuid)) = some "fresh" ∧
      ((build_workflow okWorld reportsOpts "fresh").report_calls.map
        (fun c => c.run_uuid)) = ["prior-uuid"] :=
  c10_reports_only_fresh_uuid okWorld reportsOpts "fresh" "prior-uuid"
    rfl rfl (by decide)

/-! ## C3: concurrency planner -/

/-- C3 (counterexample): at T=4, O=-1, C=4 the claim's formula picks the
fallback `min(total - 1, 8) = 3` (since O is not ≥ 1), but the code keeps
`per_task = -1` because it only tests `omp_nthreads == 0`. -/
theorem c3_concurrency_planner_counterexample :
    ¬ ((-1 : Int) ≥ 1) ∧
      plan_omp (-1) (plan_nthreads 4 4) 4 ≠
        min (plan_nthreads 4 4 - 1) 8 := by decide

/-- C3 (amended): total = T when T ≥ 1 and C otherwise; per_task = O when
O ≠ 0 (not "O ≥ 1": negative values are kept as-is) and otherwise
min((total − 1) if total > 1 else C, 8); in particular T=0, O=0, C=4 gives
total=4, per_task=3, and T=1, O=0 gives per_task = min(C, 8). -/
theorem c3_concurrency_planner (T O C : Int) :
    plan_nthreads T C = (if T ≥ 1 then T else C) ∧
      plan_omp O (plan_nthreads T C) C =
        (if O ≠ 0 then O
          else min (if plan_nthreads T C > 1 then plan_nthreads T C - 1 else C) 8) ∧
      plan_nthreads 0 4 = 4 ∧
      plan_omp 0 (plan_nthreads 0 4) 4 = 3 ∧
      plan_omp 0 (plan_nthreads 1 C) C = min C 8 := by
  refine ⟨?_, ?_, by decide, by decide, ?_⟩
  · unfold plan_nthreads
    split_ifs <;> omega
  · unfold plan_omp
    split_ifs <;> simp_all
  · unfold plan_omp plan_nthreads
    norm_num

/-! ## C5: execution failure classification -/

/-- C5: once the execution phase is reached, a `RuntimeError` containing
"Workflow did not execute cleanly" records phase status 1 and report
aggregation still runs, with the process exiting nonzero iff the combined
status `1 + n` is positive; any other failure (non-`RuntimeError`, or a
`RuntimeError` without the marker) propagates uncaught and report
aggregation never runs. -/
theorem c5_execution_failure_policy (w : World) (opts : Opts) (u : String)
    (r : Retval)
    (hlic : w.path_exists (resolve_license w opts.fs_license_file) = true)
    (hch : (build_workflow w opts u).channel = some r)
    (hwf : r.workflow.isNone = false)
    (hro : opts.reports_only = false)
    (hwgf : w.write_graph_fault = none) :
    (main w opts u).trace.wf_run_called = true ∧
      (∀ msg, w.wf_run = RunResult.err true msg →
        strContains msg workflow_clean_err = true →
        ∃ n, (main w opts u).trace.report_total = some n ∧
          (main w opts u).term = Term.exited (if 1 + n > 0 then 1 else 0)) ∧
      (∀ isRT msg, w.wf_run = RunResult.err isRT msg →
        (isRT && strContains msg workflow_clean_err) = false →
        (main w opts u).term = Term.crashed msg ∧
          (main w opts u).trace.report_total = none) := by
  obtain ⟨tr, htr, heq⟩ : ∃ tr : MainTrace, tr.report_total = none ∧
      main w opts u = execute_and_report w r tr := by
    by_cases hwg : opts.write_graph = true
    · refine ⟨{ env_fs_license_set := some (resolve_license w opts.fs_license_file)
                build := some (build_workflow w opts u)
                write_graph_called := true }, rfl, ?_⟩
      simp [main, hlic, hch, hwf, hro, hwgf, hwg]
    · refine ⟨{ env_fs_license_set := some (resolve_license w opts.fs_license_file)
                build := some (build_workflow w opts u) }, rfl, ?_⟩
      simp [main, hlic, hch, hwf, hro, hwgf, hwg]
  rw [heq]
  refine ⟨?_, ?_, ?_⟩
  · unfold execute_and_report
    rcases w.wf_run with _ | ⟨rt, m⟩
    · simp
    · dsimp only
      split <;> simp
  · intro msg hw hc
    simp [execute_and_report, hw, hc]
  · intro isRT msg hw hc
    simp [execute_and_report, hw, hc, htr]

/-- Witness for C5: in `crashWorld` the combined status is 1 + 2 = 3 and
the exit code is 1 (not 3), with reports still aggregated. -/
theorem c5_execution_failure_policy_witness :
    (main crashWorld execOpts "uuid").term = Term.exited 1 ∧
      (main crashWorld execOpts "uuid").trace.report_total = some 2 := by
  obtain ⟨n, hn, ht⟩ :=
    (c5_execution_failure_policy crashWorld execOpts "uuid"
        (((build_workflow crashWorld execOpts "uuid").channel).getD emptyRetval)
        (by decide) (by decide) (by decide) (by decide) (by decide)).2.1
      "RuntimeError: Workflow did not execute cleanly" rfl (by decide)
  have h2 : (main crashWorld execOpts "uuid").trace.report_total = some 2 := by
    decide
  rw [hn] at h2
  have hn2 : n = 2 := Option.some.inj h2
  subst hn2
  exact ⟨by simpa using ht, hn⟩

/-! ## C2: failures inside the build worker -/

/-- C2 (counterexample): when participant resolution fails, the worker does
NOT capture the failure into the status field — the exception escapes the
worker and the channel stays empty (no key was ever assigned). -/
theorem c2_worker_fault_counterexample :
    (build_workflow badDatasetWorld execOpts "uuid").channel = none ∧
      (build_workflow badDatasetWorld execOpts "uuid").fault =
        some "ERROR: no subjects found" := by decide

/-- C2 (amended): a failure during participant resolution (the checks
before it passing) escapes the worker as an unhandled fault and leaves the
result channel empty; the caller then crashes with a `KeyError` reading the
missing result, so the process exits nonzero without running the execution
or report phases. -/
theorem c2_worker_fault_policy (w : World) (opts : Opts) (u e : String)
    (hlic : w.path_exists (resolve_license w opts.fs_license_file) = true)
    (h1 : ¬ (opts.use_aroma = true ∧
      (¬ opts.template = "MNI152NLin2009cAsym" ∨ "template" ∉ opts.output_space)))
    (h2 : ¬ ("template" ∉ opts.output_space ∧ opts.force_syn = true))
    (hcol : w.collect_participants (w.abspath opts.bids_dir)
      opts.participant_label = .error e) :
    (build_workflow w opts u).fault = some e ∧
      (build_workflow w opts u).channel = none ∧
      (main w opts u).term = Term.crashed key_err_msg ∧
      (main w opts u).term.nonzero = true ∧
      (main w opts u).trace.wf_run_called = false ∧
      (main w opts u).trace.report_total = none := by
  have hb : build_workflow w opts u = { fault := some e } := by
    simp [build_workflow, h1, h2, hcol]
  refine ⟨?_, ?_, ?_, ?_, ?_, ?_⟩ <;> simp [main, hb, hlic, Term.nonzero]

/-- Witness for C2 (amended) on the concrete invalid-dataset world. -/
theorem c2_worker_fault_policy_witness :
    (main badDatasetWorld execOpts "uuid").term = Term.crashed key_err_msg ∧
      (main badDatasetWorld execOpts "uuid").trace.wf_run_called = false :=
  ⟨(c2_worker_fault_policy badDatasetWorld execOpts "uuid"
      "ERROR: no subjects found" (by decide) (by decide) (by decide) rfl).2.2.1,
    (c2_worker_fault_policy badDatasetWorld execOpts "uuid"
      "ERROR: no subjects found" (by decide) (by decide) (by decide) rfl).2.2.2.2.1⟩

/-! ## C4: FreeSurfer license resolution -/

/-- C4 (counterexample): with `FS_LICENSE` set to a missing file and an
existing `FREESURFER_HOME` default, the spec's first-non-empty-and-existing
resolver succeeds, but the code selects the `FS_LICENSE` value without
checking existence and aborts — so the launch does not fail "iff no
candidate resolves to an existing file". -/
theorem c4_license_counterexample :
    resolve_license_spec licWorld none = some "/fs/license.txt" ∧
      (main licWorld execOpts "uuid").term = Term.crashed license_err_msg ∧
      (main licWorld execOpts "uuid").trace.build = none := by decide

/-- Helper: the execution/report phase never touches the recorded
`FS_LICENSE` environment write. -/
theorem execute_and_report_env (w : World) (r : Retval) (tr : MainTrace) :
    (execute_and_report w r tr).trace.env_fs_license_set =
      tr.env_fs_license_set := by
  unfold execute_and_report
  rcases w.wf_run with _ | ⟨rt, m⟩
  · simp
  · dsimp only
    split <;> simp

/-- C4 (amended): the launch selects the explicit argument when non-empty,
else the `FS_LICENSE` value whenever the variable is present (even when it
is empty or names a missing file — no fall-through), else the
`FREESURFER_HOME` default; it aborts before spawning the worker iff the
SELECTED candidate does not name an existing file, and on success the
selected path is written back into the environment. -/
theorem c4_license_resolution (w : World) (opts : Opts) (u : String) :
    (w.path_exists (resolve_license w opts.fs_license_file) = false →
        (main w opts u).term = Term.crashed license_err_msg ∧
        (main w opts u).trace.build = none ∧
        (main w opts u).term.nonzero = true) ∧
      (w.path_exists (resolve_license w opts.fs_license_file) = true →
        (main w opts u).trace.env_fs_license_set =
          some (resolve_license w opts.fs_license_file)) := by
  constructor
  · intro h
    refine ⟨?_, ?_, ?_⟩ <;> simp [main, h, Term.nonzero]
  · intro h
    simp only [main, h]
    repeat' split
    all_goals simp_all [execute_and_report_env]

/-- Witness for C4 (amended): in the all-succeeding world the resolved
default path is written back into the environment. -/
theorem c4_license_resolution_witness :
    (main okWorld execOpts "uuid").trace.env_fs_license_set =
      some (resolve_license okWorld execOpts.fs_license_file) :=
  (c4_license_resolution okWorld execOpts "uuid").2 (by decide)

/-! ## C7: engine-configuration override -/

/-- C7 (counterexample): under `--use-plugin`, changing the per-task thread
knob leaves the plugin settings untouched but changes the `omp_nthreads`
argument handed to graph construction — so it is false that no knob
influences what is handed to graph construction. -/
theorem c7_plugin_override_counterexample :
    pluginOptsA.use_plugin = pluginOptsB.use_plugin ∧
      ((build_workflow okWorld pluginOptsA "uuid").channel.map
          (fun r => r.plugin_settings)) =
        ((build_workflow okWorld pluginOptsB "uuid").channel.map
          (fun r => r.plugin_settings)) ∧
      ((build_workflow okWorld pluginOptsA "uuid").channel.map
          (fun r => r.workflow)) ≠
        ((build_workflow okWorld pluginOptsB "uuid").channel.map
          (fun r => r.workflow)) := by decide

/-- C7 (amended): the override document replaces the computed plugin
settings verbatim — no field of the computed plan, and no knob value, is
merged into what is handed to graph execution; the thread knobs do still
determine the `omp_nthreads` value handed to graph construction. -/
theorem c7_plugin_override (w : World) (opts : Opts) (u doc : String)
    (r : Retval)
    (hplug : opts.use_plugin = some doc)
    (hch : (build_workflow w opts u).channel = some r) :
    r.plugin_settings = PluginSettings.external doc ∧
      (∀ wf, r.workflow = some wf →
        wf.omp_nthreads =
          plan_omp opts.omp_nthreads (plan_nthreads opts.nthreads w.cpu_count)
            w.cpu_count) := by
  simp only [build_workflow] at hch
  repeat' split at hch
  all_goals simp only [Option.some.injEq] at hch
  all_goals first
    | exact absurd hch (by simp)
    | (subst hch; simp_all)

/-- Witness for C7 (amended) on a concrete overridden run. -/
theorem c7_plugin_override_witness :
    ((build_workflow okWorld pluginOptsA "uuid").channel.getD
        emptyRetval).plugin_settings = PluginSettings.external "plugin.yml" :=
  (c7_plugin_override okWorld pluginOptsA "uuid" "plugin.yml"
      ((build_workflow okWorld pluginOptsA "uuid").channel.getD emptyRetval)
      rfl (by decide)).1

/-! ## C8: graph-visualization failure -/

/-- C8 (counterexample): when `--write-graph` rendering fails, the
supervisor does NOT proceed — the exception propagates and neither graph
execution nor report aggregation runs. -/
theorem c8_write_graph_counterexample :
    (main wgFailWorld wgOpts "uuid").term = Term.crashed "write_graph failed" ∧
      (main wgFailWorld wgOpts "uuid").trace.wf_run_called = false ∧
      (main wgFailWorld wgOpts "uuid").trace.report_total = none := by decide

/-- C8 (amended): a failure while rendering the requested graph
visualization is fatal: the exception propagates uncaught, the process
exits nonzero, and neither the reports-only exit nor graph execution nor
report aggregation is reached. -/
theorem c8_write_graph_failure (w : World) (opts : Opts) (u m : String)
    (r : Retval)
    (hlic : w.path_exists (resolve_license w opts.fs_license_file) = true)
    (hch : (build_workflow w opts u).channel = some r)
    (hwf : r.workflow.isNone = false)
    (hwg : opts.write_graph = true)
    (hfault : w.write_graph_fault = some m) :
    (main w opts u).term = Term.crashed m ∧
      (main w opts u).term.nonzero = true ∧
      (main w opts u).trace.wf_run_called = false ∧
      (main w opts u).trace.report_total = none := by
  refine ⟨?_, ?_, ?_, ?_⟩ <;>
    simp [main, hlic, hch, hwf, hwg, hfault, Term.nonzero]

/-- Witness for C8 (amended) on the concrete failing-renderer world. -/
theorem c8_write_graph_failure_witness :
    (main wgFailWorld wgOpts "uuid").term = Term.crashed "write_graph failed" ∧
      (main wgFailWorld wgOpts "uuid").trace.report_total = none :=
  ⟨(c8_write_graph_failure wgFailWorld wgOpts "uuid" "write_graph failed"
      ((build_workflow wgFailWorld wgOpts "uuid").channel.getD emptyRetval)
      (by decide) (by decide) (by decide) rfl rfl).1,
    (c8_write_graph_failure wgFailWorld wgOpts "uuid" "write_graph failed"
      ((build_workflow wgFailWorld wgOpts "uuid").channel.getD emptyRetval)
      (by decide) (by decide) (by decide) rfl rfl).2.2.2⟩

/-! ## C1: reports-only exit status -/

/-- C1 (divergence witness): a reports-only invocation in the
all-succeeding world — aggregation returns 0 failures (the channel's
`return_code` is 0) and graph construction and execution are never
attempted, yet `main` exits with status 1, because the workflow-is-absent
check precedes the reports-only branch and the worker always leaves the
workflow handle absent in reports-only mode (the
`sys.exit(int(retcode > 0))` line is unreachable). -/
theorem c1_reports_only_exit :
    ((build_workflow okWorld reportsOpts "uuid").channel.map
        (fun r => r.return_code)) = some 0 ∧
      (build_workflow okWorld reportsOpts "uuid").init_wf_called = false ∧
      (main okWorld reportsOpts "uuid").trace.wf_run_called = false ∧
      (main okWorld reportsOpts "uuid").term = Term.exited 1 := by decide

end FmriprepRun
